import Mathlib

/-!
Verification of the session state machine of `ble-connect.py`, an interactive
console client for BLE GATT devices.  The Python source is shallowly embedded:

* the BLE transport (bleak) is abstracted by `AdapterEnv`, which tells for each
  characteristic identifier whether `start_notify`, `stop_notify` and
  `read_gatt_char` succeed or raise; every transport invocation performed by
  the embedded code is recorded as an `AdapterCall`;
* the global `subscribed_chars` Python set is modelled as a duplicate-free
  `List String` (`SubSet`) threaded explicitly through every function;
* console output is abstracted to the message kinds (`Msg`) relevant to the
  claims; the exact text is not modelled;
* `input()` lines and `KeyboardInterrupt` are modelled as `InputEvent`s fed
  from a script.
-/

namespace BLEConnect

/-- ASCII whitespace recognised by Python's `str.strip` / `str.split`. -/
def isPySpace (c : Char) : Bool :=
  c = ' ' || c = '\t' || c = '\n' || c = '\r' || c = '\x0b' || c = '\x0c'

/-- Model of Python `str.strip()`: drop leading and trailing whitespace. -/
def pyStrip (s : String) : String :=
  ⟨((s.data.dropWhile isPySpace).reverse.dropWhile isPySpace).reverse⟩

/-- Model of Python `str.lower()` (ASCII case folding). -/
def pyLower (s : String) : String :=
  ⟨s.data.map Char.toLower⟩

/-- Auxiliary for `pySplit`: walk the characters, cutting at every character
satisfying `p`; the accumulator holds the current piece reversed. -/
def splitChars (p : Char → Bool) : List Char → List Char → List String
  | [], acc => [⟨acc.reverse⟩]
  | c :: rest, acc =>
    if p c then ⟨acc.reverse⟩ :: splitChars p rest []
    else splitChars p rest (c :: acc)

/-- Model of Python `str.split()` with no argument: split at whitespace and
discard the empty pieces (equivalently, split on whitespace runs). -/
def pySplit (s : String) : List String :=
  (splitChars isPySpace s.data []).filter (fun t => t ≠ "")

/-- Model of Python `str.isdigit()` (restricted to ASCII digits): nonempty and
all characters are digits. -/
def pyIsDigit (s : String) : Bool :=
  s ≠ "" && s.data.all Char.isDigit

/-- Decimal value of a digit string, most significant digit first. -/
def digitsVal : List Char → Nat → Nat
  | [], acc => acc
  | c :: rest, acc => digitsVal rest (acc * 10 + (c.toNat - '0'.toNat))

/-- Model of Python `int(s)` on a digit string. -/
def pyToNat (s : String) : Nat :=
  digitsVal s.data 0

/-- A GATT characteristic: its UUID and its property list, exactly the two
fields the script consults (`char.uuid`, `char.properties`). -/
structure Characteristic where
  uuid : String
  properties : List String
deriving DecidableEq, Inhabited

/-- A GATT service: its UUID and its characteristics, in adapter order. -/
structure Service where
  uuid : String
  characteristics : List Characteristic
deriving DecidableEq, Inhabited

/-- The filter on line 67 of the script: a characteristic is actionable when
its properties contain `read`, `notify` or `indicate`. -/
def isActionable (c : Characteristic) : Bool :=
  c.properties.contains "read" || c.properties.contains "notify"
    || c.properties.contains "indicate"

/-- All characteristics of a connection, in adapter-provided
service/characteristic discovery order (the nested `for` loops of
`list_available_characteristics`). -/
def allCharacteristics (services : List Service) : List Characteristic :=
  services.flatMap (fun s => s.characteristics)

/-- Inner loop of `list_available_characteristics` over one service's
characteristics: carries the running `char_index` counter and emits, for each
actionable characteristic, the printed index together with the
`(char.uuid, char.properties)` pair appended to `actionable_chars`.  Returns
the emitted entries and the final counter value. -/
def chars_loop : List Characteristic → Nat → List (Nat × String × List String) × Nat
  | [], n => ([], n)
  | c :: rest, n =>
    if isActionable c then
      let r := chars_loop rest (n + 1)
      ((n, c.uuid, c.properties) :: r.1, r.2)
    else
      chars_loop rest n

/-- Outer loop of `list_available_characteristics` over the services; the
`char_index` counter carries across services. -/
def services_loop : List Service → Nat → List (Nat × String × List String) × Nat
  | [], n => ([], n)
  | s :: rest, n =>
    let r1 := chars_loop s.characteristics n
    let r2 := services_loop rest r1.2
    (r1.1 ++ r2.1, r2.2)

/-- The indexed listing printed by `list_available_characteristics`:
`(printed index, uuid, properties)` for each actionable characteristic. -/
def indexed_listing (services : List Service) : List (Nat × String × List String) :=
  (services_loop services 0).1

/-- `list_available_characteristics` (lines 58-78): the `actionable_chars`
list it returns, i.e. the `(uuid, properties)` pairs in emission order. -/
def list_available_characteristics (services : List Service) :
    List (String × List String) :=
  (indexed_listing services).map (fun t => (t.2.1, t.2.2))

/-- The global `subscribed_chars` Python set, modelled as a duplicate-free
list of identifiers. -/
abbrev SubSet := List String

/-- Python `set.add`: insert unless already present. -/
def setAdd (s : SubSet) (u : String) : SubSet :=
  if s.contains u then s else s ++ [u]

/-- Abstraction of the bleak transport: for each characteristic identifier,
whether the corresponding awaited call succeeds (`true`) or raises
(`false`). -/
structure AdapterEnv where
  startNotifyOk : String → Bool
  stopNotifyOk : String → Bool
  readOk : String → Bool

/-- A transport invocation performed by the script. -/
inductive AdapterCall where
  | startNotify (uuid : String)
  | stopNotify (uuid : String)
  | readGatt (uuid : String)
deriving DecidableEq

/-- Outcome of `read_characteristic_by_index`, mirroring which of its print
statements fires. -/
inductive ReadOutcome where
  | noReadable
  | invalidIndex
  | notReadable (uuid : String)
  | readValue (uuid : String)
  | readFailed (uuid : String)
deriving DecidableEq

/-- `read_characteristic_by_index` (lines 80-97): returns the outcome, the
(unchanged) subscription set, and the transport calls made. -/
def read_characteristic_by_index (env : AdapterEnv)
    (actionable : List (String × List String)) (index : Nat) (s : SubSet) :
    ReadOutcome × SubSet × List AdapterCall :=
  if actionable = [] then (.noReadable, s, [])
  else if index < actionable.length then
    if (actionable.getD index ("", [])).2.contains "read" = false then
      (.notReadable (actionable.getD index ("", [])).1, s, [])
    else if env.readOk (actionable.getD index ("", [])).1 = true then
      (.readValue (actionable.getD index ("", [])).1, s,
        [.readGatt (actionable.getD index ("", [])).1])
    else
      (.readFailed (actionable.getD index ("", [])).1, s,
        [.readGatt (actionable.getD index ("", [])).1])
  else (.invalidIndex, s, [])

/-- Outcome of `subscribe_to_characteristic_by_index`, mirroring which of its
print statements fires. -/
inductive SubOutcome where
  | noSubscribable
  | invalidIndex
  | notSubscribable (uuid : String)
  | subscribed (uuid : String)
  | subscribeFailed (uuid : String)
deriving DecidableEq

/-- `subscribe_to_characteristic_by_index` (lines 99-117): on success the
lower-cased UUID is added to the set (`subscribed_chars.add(uuid.lower())`);
if `start_notify` raises, the `add` on the next line is not reached. -/
def subscribe_to_characteristic_by_index (env : AdapterEnv)
    (actionable : List (String × List String)) (index : Nat) (s : SubSet) :
    SubOutcome × SubSet × List AdapterCall :=
  if actionable = [] then (.noSubscribable, s, [])
  else if index < actionable.length then
    if ((actionable.getD index ("", [])).2.contains "notify"
        || (actionable.getD index ("", [])).2.contains "indicate") = false then
      (.notSubscribable (actionable.getD index ("", [])).1, s, [])
    else if env.startNotifyOk (actionable.getD index ("", [])).1 = true then
      (.subscribed (actionable.getD index ("", [])).1,
        setAdd s (pyLower (actionable.getD index ("", [])).1),
        [.startNotify (actionable.getD index ("", [])).1])
    else
      (.subscribeFailed (actionable.getD index ("", [])).1, s,
        [.startNotify (actionable.getD index ("", [])).1])
  else (.invalidIndex, s, [])

/-- Console messages, abstracted to the kinds the claims discuss. -/
inductive Msg where
  | invalidCommand
  | invalidFormat
  | helpText
  | listingPrinted
  | unsubscribed (uuid : String)
  | unsubscribeFailed (uuid : String)
  | disconnectingToRescan
  | interruptDisconnecting
  | subscribeReport (o : SubOutcome)
  | readReport (o : ReadOutcome)
deriving DecidableEq

/-- The cleanup `for` loop duplicated at lines 150-156, 161-167 and 199-205:
iterate over a snapshot (`subscribed_chars.copy()`) of the set; for each
identifier `await client.stop_notify(uuid)` and, only when that call did not
raise, `subscribed_chars.remove(uuid)`; a raise is caught and logged.  Returns
the final set, the transport calls and the per-identifier log messages. -/
def cleanup_loop (env : AdapterEnv) :
    List String → SubSet → SubSet × List AdapterCall × List Msg
  | [], s => (s, [], [])
  | u :: rest, s =>
    if env.stopNotifyOk u then
      let r := cleanup_loop env rest (s.erase u)
      (r.1, .stopNotify u :: r.2.1, .unsubscribed u :: r.2.2)
    else
      let r := cleanup_loop env rest s
      (r.1, .stopNotify u :: r.2.1, .unsubscribeFailed u :: r.2.2)

/-- The whole unsubscribe-all sequence: run the cleanup loop over a snapshot
of the current set. -/
def unsubscribe_all (env : AdapterEnv) (s : SubSet) :
    SubSet × List AdapterCall × List Msg :=
  cleanup_loop env s s

/-- One event consumed by the connected command loop: a line from `input()`
or a `KeyboardInterrupt` raised while waiting for input. -/
inductive InputEvent where
  | line (s : String)
  | interrupt
deriving DecidableEq

/-- How one iteration of the command loop ends. -/
inductive StepResult where
  | continueLoop
  | exitProgram
  | rescanRequest
deriving DecidableEq

/-- Result of one iteration of the command loop: how the loop proceeds, the
subscription set afterwards, the transport calls made and the messages
printed. -/
structure StepOut where
  result : StepResult
  subscribed : SubSet
  calls : List AdapterCall
  msgs : List Msg
deriving DecidableEq

/-- One iteration of the `while True` command loop of `interact_with_device`
(lines 139-208): strip/lower the input line, skip it when empty, tokenize,
and dispatch on the first token.  `quit`/`exit` and `KeyboardInterrupt` run
the cleanup loop and `break` (the script then returns `True`); `rescan` runs
the cleanup loop and returns `False`; everything else stays in the loop. -/
def interact_step (env : AdapterEnv) (actionable : List (String × List String))
    (s : SubSet) (ev : InputEvent) : StepOut :=
  match ev with
  | .interrupt =>
    let r := unsubscribe_all env s
    ⟨.exitProgram, r.1, r.2.1, .interruptDisconnecting :: r.2.2⟩
  | .line raw =>
    let user_input := pyLower (pyStrip raw)
    if user_input = "" then ⟨.continueLoop, s, [], []⟩
    else
      let parts := pySplit user_input
      let command := parts.headD ""
      if command = "quit" || command = "exit" then
        let r := unsubscribe_all env s
        ⟨.exitProgram, r.1, r.2.1, r.2.2⟩
      else if command = "rescan" then
        let r := unsubscribe_all env s
        ⟨.rescanRequest, r.1, r.2.1, .disconnectingToRescan :: r.2.2⟩
      else if command = "help" then ⟨.continueLoop, s, [], [.helpText]⟩
      else if command = "list" then ⟨.continueLoop, s, [], [.listingPrinted]⟩
      else if command = "subscribe" then
        if parts.length ≠ 2 || pyIsDigit (parts.getD 1 "") = false then
          ⟨.continueLoop, s, [], [.invalidFormat, .listingPrinted]⟩
        else
          let r := subscribe_to_characteristic_by_index env actionable
            (pyToNat (parts.getD 1 "")) s
          ⟨.continueLoop, r.2.1, r.2.2, [.subscribeReport r.1]⟩
      else if command = "read" then
        if parts.length ≠ 2 || pyIsDigit (parts.getD 1 "") = false then
          ⟨.continueLoop, s, [], [.invalidFormat, .listingPrinted]⟩
        else
          let r := read_characteristic_by_index env actionable
            (pyToNat (parts.getD 1 "")) s
          ⟨.continueLoop, r.2.1, r.2.2, [.readReport r.1]⟩
      else ⟨.continueLoop, s, [], [.invalidCommand]⟩

/-- How a run of the command loop over a finite event script ends:
`awaitingInput` means the script ran out while the loop would keep going. -/
inductive LoopResult where
  | exitProgram
  | rescanRequest
  | awaitingInput
deriving DecidableEq

/-- Run the command loop over a script of input events. -/
def run_steps (env : AdapterEnv) (actionable : List (String × List String)) :
    List InputEvent → SubSet → LoopResult × SubSet × List AdapterCall
  | [], s => (.awaitingInput, s, [])
  | ev :: rest, s =>
    let o := interact_step env actionable s ev
    match o.result with
    | .continueLoop =>
      let r := run_steps env actionable rest o.subscribed
      (r.1, r.2.1, o.calls ++ r.2.2)
    | .exitProgram => (.exitProgram, o.subscribed, o.calls)
    | .rescanRequest => (.rescanRequest, o.subscribed, o.calls)

/-- How establishing the connection (`async with BleakClient(address,
timeout=10.0)`) goes: success, `asyncio.TimeoutError`, or `BleakError`. -/
inductive ConnectOutcome where
  | ok
  | timeout
  | connectError
deriving DecidableEq

/-- Everything one call of `interact_with_device` does that the claims
observe.  `returnedValue` is the Python return value (`some true` for the
`break` paths, `some false` for rescan and for connect failure, `none` when
the event script ran out mid-loop); `builtIndex` is the `actionable_chars`
list when it was built; `setAtConnect` is the value of the global
`subscribed_chars` at the moment the command loop is entered (the script
never resets the global on connect). -/
structure SessionRun where
  returnedValue : Option Bool
  builtIndex : Option (List (String × List String))
  setAtConnect : Option SubSet
  finalSet : SubSet
  calls : List AdapterCall
deriving DecidableEq, Inhabited

/-- `interact_with_device` (lines 131-217): on a connect failure the two
`except` clauses at lines 212-217 print the failure and return `False`
without ever calling `list_available_characteristics`; on success the
characteristic listing is built once and the command loop runs. -/
def interact_with_device (env : AdapterEnv) (co : ConnectOutcome)
    (services : List Service) (events : List InputEvent) (s0 : SubSet) :
    SessionRun :=
  match co with
  | .timeout => ⟨some false, none, none, s0, []⟩
  | .connectError => ⟨some false, none, none, s0, []⟩
  | .ok =>
    let actionable := list_available_characteristics services
    let r := run_steps env actionable events s0
    let ret : Option Bool :=
      match r.1 with
      | .exitProgram => some true
      | .rescanRequest => some false
      | .awaitingInput => none
    ⟨ret, some actionable, some s0, r.2.1, r.2.2⟩

/-- A device found by `BleakScanner.discover`: `device.name` (possibly
`None`) and `device.address`. -/
structure DiscoveredDevice where
  name : Option String
  address : String
deriving DecidableEq, Inhabited

/-- Lines 47-51 of `scan_for_ble`: a parsed numeric choice resolves to the
selected device's address when in bounds, and to nothing (the
"Invalid device number" report) otherwise. -/
def resolve_selection (devices : List DiscoveredDevice) (index : Nat) :
    Option String :=
  if index < devices.length then some ((devices.getD index default).address)
  else none

/-- What one iteration of the inner selection loop of `scan_for_ble`
(lines 36-56) does with one input line. -/
inductive SelectionAction where
  | showHelp
  | exitScript
  | refreshScan
  | connectTo (address : String)
  | invalidNumber
  | invalidInput
deriving DecidableEq

/-- One iteration of the selection loop: strip/lower the line and classify
it exactly as lines 38-53 do (`choice in ("quit", "exit")` is spelled as two
comparisons). -/
def scan_selection_step (devices : List DiscoveredDevice) (raw : String) :
    SelectionAction :=
  if pyLower (pyStrip raw) = "help" then .showHelp
  else if pyLower (pyStrip raw) = "quit" then .exitScript
  else if pyLower (pyStrip raw) = "exit" then .exitScript
  else if pyLower (pyStrip raw) = "refresh" then .refreshScan
  else if pyIsDigit (pyLower (pyStrip raw)) = true then
    match resolve_selection devices (pyToNat (pyLower (pyStrip raw))) with
    | some a => .connectTo a
    | none => .invalidNumber
  else .invalidInput

/-- How a run of the inner selection loop over a finite input script ends. -/
inductive ScanLoopResult where
  | connect (address : String)
  | exitScript
  | needRescan
  | awaitingInput
deriving DecidableEq

/-- Run the inner selection loop of `scan_for_ble` over an input script; the
device list is fixed for the whole run (`help`, out-of-range numbers and
invalid input stay in the loop with the same list). -/
def scan_inner_loop (devices : List DiscoveredDevice) :
    List String → ScanLoopResult
  | [] => .awaitingInput
  | raw :: rest =>
    match scan_selection_step devices raw with
    | .connectTo a => .connect a
    | .exitScript => .exitScript
    | .refreshScan => .needRescan
    | _ => scan_inner_loop devices rest

/-- One round of `main`'s `while True` loop: the outcome of `scan_for_ble`
(`none` = the operator quit or interrupted during selection, `some addr` = a
device was chosen), and the environment the resulting session runs in. -/
structure Round where
  scanned : Option String
  connect : ConnectOutcome
  services : List Service
  events : List InputEvent
  env : AdapterEnv

/-- How a run of `main` over a finite script of rounds ends. -/
inductive MainOutcome where
  | exitAtScan
  | exitAfterSession
  | scriptExhausted
deriving DecidableEq

/-- `main` (lines 219-227): scan; stop if the operator quit during
selection; otherwise run a session and stop only when it returned `True`,
looping back to a fresh scan when it returned `False`.  The global
`subscribed_chars` is threaded from session to session; the trace of
`SessionRun`s is returned for inspection. -/
def main_loop : List Round → SubSet → MainOutcome × SubSet × List SessionRun
  | [], s => (.scriptExhausted, s, [])
  | r :: rest, s =>
    match r.scanned with
    | none => (.exitAtScan, s, [])
    | some _ =>
      let run := interact_with_device r.env r.connect r.services r.events s
      match run.returnedValue with
      | some true => (.exitAfterSession, run.finalSet, [run])
      | some false =>
        let m := main_loop rest run.finalSet
        (m.1, m.2.1, run :: m.2.2)
      | none => (.scriptExhausted, run.finalSet, [run])

/-! ### Concrete fixtures used by counterexamples and witnesses -/

/-- Transport in which every call succeeds. -/
def envAllOk : AdapterEnv := ⟨fun _ => true, fun _ => true, fun _ => true⟩

/-- Transport in which `start_notify` and reads succeed but `stop_notify`
raises (a `SubscriptionError` during cleanup). -/
def envStopFails : AdapterEnv := ⟨fun _ => true, fun _ => false, fun _ => true⟩

/-- Transport in which every call raises, as after a mid-session
disconnect. -/
def envDead : AdapterEnv := ⟨fun _ => false, fun _ => false, fun _ => false⟩

/-- A device exposing one notify-capable characteristic. -/
def notifySvcs : List Service := [⟨"svc", [⟨"2A19", ["notify"]⟩]⟩]

/-- The actionable list built from `notifySvcs`. -/
def notifyActs : List (String × List String) := [("2A19", ["notify"])]

/-! ### Characteristic Index construction -/

theorem chars_loop_pairs (cs : List Characteristic) (n : Nat) :
    (chars_loop cs n).1.map (fun t => (t.2.1, t.2.2))
      = (cs.filter isActionable).map (fun c => (c.uuid, c.properties)) := by
  induction cs generalizing n with
  | nil => rfl
  | cons c rest ih =>
    by_cases h : isActionable c
    · simp [chars_loop, h, List.filter_cons, ih]
    · simp [chars_loop, h, List.filter_cons, ih]

theorem chars_loop_counter (cs : List Characteristic) (n : Nat) :
    (chars_loop cs n).2 = n + (cs.filter isActionable).length := by
  induction cs generalizing n with
  | nil => simp [chars_loop]
  | cons c rest ih =>
    by_cases h : isActionable c
    · simp [chars_loop, h, List.filter_cons, ih]
      omega
    · simp [chars_loop, h, List.filter_cons, ih]

theorem chars_loop_indices (cs : List Characteristic) (n : Nat) :
    (chars_loop cs n).1.map (fun t => t.1)
      = List.range' n (cs.filter isActionable).length := by
  induction cs generalizing n with
  | nil => rfl
  | cons c rest ih =>
    by_cases h : isActionable c
    · simp [chars_loop, h, List.filter_cons, ih, List.range'_succ]
    · simp [chars_loop, h, List.filter_cons, ih]

theorem services_loop_pairs (ss : List Service) (n : Nat) :
    (services_loop ss n).1.map (fun t => (t.2.1, t.2.2))
      = ((allCharacteristics ss).filter isActionable).map
          (fun c => (c.uuid, c.properties)) := by
  induction ss generalizing n with
  | nil => rfl
  | cons s rest ih =>
    simp [services_loop, allCharacteristics, List.filter_append,
      chars_loop_pairs, ih]

theorem services_loop_indices (ss : List Service) (n : Nat) :
    (services_loop ss n).1.map (fun t => t.1)
      = List.range' n ((allCharacteristics ss).filter isActionable).length := by
  induction ss generalizing n with
  | nil => rfl
  | cons s rest ih =>
    simp only [services_loop, List.map_append, chars_loop_indices,
      chars_loop_counter, ih, allCharacteristics, List.flatMap_cons,
      List.filter_append, List.length_append]
    rw [Nat.add_comm (List.filter isActionable s.characteristics).length,
      ← List.range'_append_1]

/-- C3: The Actionable Characteristic Entry list built at connect time
contains exactly the characteristics whose properties contain `read`,
`notify` or `indicate`, as `(uuid, properties)` pairs in discovery order,
and the printed indices are the dense sequence `0, 1, ..., k-1` assigned in
that same order. -/
theorem actionable_list_exact (services : List Service) :
    list_available_characteristics services
        = ((allCharacteristics services).filter isActionable).map
            (fun c => (c.uuid, c.properties)) ∧
      (indexed_listing services).map (fun t => t.1)
        = List.range ((allCharacteristics services).filter isActionable).length := by
  refine ⟨?_, ?_⟩
  · simpa [list_available_characteristics, indexed_listing] using
      services_loop_pairs services 0
  · simpa [indexed_listing, List.range_eq_range'] using
      services_loop_indices services 0

/-! ### Subscription-set helpers -/

theorem setAdd_mem_self (s : SubSet) (u : String) : u ∈ setAdd s u := by
  unfold setAdd
  by_cases h : s.contains u = true
  · rw [if_pos h]
    exact List.elem_iff.mp h
  · rw [if_neg h]
    simp

theorem setAdd_count_self (s : SubSet) (u : String) (hnd : s.Nodup) :
    (setAdd s u).count u = 1 := by
  unfold setAdd
  by_cases h : s.contains u = true
  · rw [if_pos h]
    exact List.count_eq_one_of_mem hnd (List.elem_iff.mp h)
  · rw [if_neg h]
    rw [List.count_append]
    have h0 : s.count u = 0 :=
      List.count_eq_zero.mpr (fun hm => h (List.elem_iff.mpr hm))
    simp [h0]

theorem setAdd_idem_of_mem (s : SubSet) (u : String) (h : u ∈ s) :
    setAdd s u = s := by
  unfold setAdd
  rw [if_pos (List.elem_iff.mpr h)]

/-! ### read / subscribe dispatch -/

/-- C4: `read <n>` on a valid index whose properties lack `read` makes no
transport call, reports the capability mismatch, and leaves the subscription
set unchanged. -/
theorem read_capability_guard (env : AdapterEnv)
    (actionable : List (String × List String)) (index : Nat) (s : SubSet)
    (hlt : index < actionable.length)
    (hread : (actionable.getD index ("", [])).2.contains "read" = false) :
    read_characteristic_by_index env actionable index s
      = (.notReadable (actionable.getD index ("", [])).1, s, []) := by
  have hne : actionable ≠ [] := by
    intro h
    rw [h] at hlt
    simp at hlt
  unfold read_characteristic_by_index
  rw [if_neg hne, if_pos hlt, if_pos hread]

/-- Witness for `read_capability_guard`: index 0 of a notify-only
characteristic. -/
theorem read_capability_guard_witness :
    read_characteristic_by_index envAllOk notifyActs 0 []
      = (.notReadable "2A19", [], []) :=
  read_capability_guard envAllOk notifyActs 0 [] (by decide) (by decide)

/-- C9: Subscribe is atomic on failure: on a valid index supporting
notify or indicate, if `start_notify` raises then the `add` on the next line
is never reached, so the subscription set is returned unchanged (the one
`start_notify` attempt is still recorded). -/
theorem subscribe_failure_atomic (env : AdapterEnv)
    (actionable : List (String × List String)) (index : Nat) (s : SubSet)
    (hlt : index < actionable.length)
    (hcap : (actionable.getD index ("", [])).2.contains "notify" = true ∨
      (actionable.getD index ("", [])).2.contains "indicate" = true)
    (hfail : env.startNotifyOk (actionable.getD index ("", [])).1 = false) :
    subscribe_to_characteristic_by_index env actionable index s
      = (.subscribeFailed (actionable.getD index ("", [])).1, s,
          [.startNotify (actionable.getD index ("", [])).1]) := by
  have hne : actionable ≠ [] := by
    intro h
    rw [h] at hlt
    simp at hlt
  have hor : ((actionable.getD index ("", [])).2.contains "notify"
      || (actionable.getD index ("", [])).2.contains "indicate") = true := by
    rcases hcap with h | h
    · simp only [Bool.or_eq_true]
      exact Or.inl h
    · simp only [Bool.or_eq_true]
      exact Or.inr h
  unfold subscribe_to_characteristic_by_index
  rw [if_neg hne, if_pos hlt, if_neg (by rw [hor]; decide),
    if_neg (by rw [hfail]; decide)]

/-- Witness for `subscribe_failure_atomic`: `start_notify` raises on the
notify characteristic while one other identifier is already subscribed. -/
theorem subscribe_failure_atomic_witness :
    subscribe_to_characteristic_by_index envDead notifyActs 0 ["aaaa"]
      = (.subscribeFailed "2A19", ["aaaa"], [.startNotify "2A19"]) :=
  subscribe_failure_atomic envDead notifyActs 0 ["aaaa"] (by decide)
    (Or.inl (by decide)) (by decide)

/-- Counterexample to C5: The second `subscribe` of the same valid index is
not a no-op: the script never checks membership before calling
`client.start_notify`, so after a first successful `subscribe 0` a second
`subscribe 0` issues one more `start_notify` call — a second delivery
registration is attempted at the transport instead of no call at all. -/
theorem subscribe_twice_reinvokes_transport :
    (subscribe_to_characteristic_by_index envAllOk notifyActs 0
        (subscribe_to_characteristic_by_index envAllOk notifyActs 0 []).2.1).2.2
      = [.startNotify "2A19"] ∧
    [AdapterCall.startNotify "2A19"] ≠ ([] : List AdapterCall) :=
  ⟨rfl, by decide⟩

/-- C5 amended: Idempotence holds at the Subscription Set level: after a
successful `subscribe`, the set contains the lower-cased identifier exactly
once, and a second `subscribe` of the same index returns the set unchanged —
but the second call re-invokes `start_notify` rather than being a no-op. -/
theorem subscribe_set_idempotent (env : AdapterEnv)
    (actionable : List (String × List String)) (index : Nat) (s : SubSet)
    (hnd : s.Nodup) (hlt : index < actionable.length)
    (hcap : (actionable.getD index ("", [])).2.contains "notify" = true ∨
      (actionable.getD index ("", [])).2.contains "indicate" = true)
    (hok : env.startNotifyOk (actionable.getD index ("", [])).1 = true) :
    ((subscribe_to_characteristic_by_index env actionable index s).2.1.count
        (pyLower (actionable.getD index ("", [])).1) = 1) ∧
    ((subscribe_to_characteristic_by_index env actionable index
        (subscribe_to_characteristic_by_index env actionable index s).2.1).2.1
      = (subscribe_to_characteristic_by_index env actionable index s).2.1) ∧
    ((subscribe_to_characteristic_by_index env actionable index
        (subscribe_to_characteristic_by_index env actionable index s).2.1).2.2
      = [.startNotify (actionable.getD index ("", [])).1]) := by
  have hne : actionable ≠ [] := by
    intro h
    rw [h] at hlt
    simp at hlt
  have hor : ((actionable.getD index ("", [])).2.contains "notify"
      || (actionable.getD index ("", [])).2.contains "indicate") = true := by
    rcases hcap with h | h
    · simp only [Bool.or_eq_true]
      exact Or.inl h
    · simp only [Bool.or_eq_true]
      exact Or.inr h
  have hstep : ∀ t : SubSet, subscribe_to_characteristic_by_index env actionable index t
      = (.subscribed (actionable.getD index ("", [])).1,
          setAdd t (pyLower (actionable.getD index ("", [])).1),
          [.startNotify (actionable.getD index ("", [])).1]) := by
    intro t
    unfold subscribe_to_characteristic_by_index
    rw [if_neg hne, if_pos hlt, if_neg (by rw [hor]; decide), if_pos hok]
  rw [hstep s]
  dsimp only
  rw [hstep (setAdd s (pyLower (actionable.getD index ("", [])).1))]
  dsimp only
  refine ⟨setAdd_count_self s _ hnd, ?_, rfl⟩
  exact setAdd_idem_of_mem _ _ (setAdd_mem_self s _)

/-- Witness for `subscribe_set_idempotent` at the notify fixture. -/
theorem subscribe_set_idempotent_witness :
    ((subscribe_to_characteristic_by_index envAllOk notifyActs 0 []).2.1.count
        (pyLower "2A19") = 1) ∧
    ((subscribe_to_characteristic_by_index envAllOk notifyActs 0
        (subscribe_to_characteristic_by_index envAllOk notifyActs 0 []).2.1).2.1
      = (subscribe_to_characteristic_by_index envAllOk notifyActs 0 []).2.1) :=
  ⟨(subscribe_set_idempotent envAllOk notifyActs 0 [] (by simp) (by decide)
      (Or.inl (by decide)) (by decide)).1,
    (subscribe_set_idempotent envAllOk notifyActs 0 [] (by simp) (by decide)
      (Or.inl (by decide)) (by decide)).2.1⟩

/-! ### The unsubscribe-all cleanup sequence -/

theorem cleanup_loop_calls (env : AdapterEnv) (l : List String) (s : SubSet) :
    (cleanup_loop env l s).2.1 = l.map AdapterCall.stopNotify := by
  induction l generalizing s with
  | nil => rfl
  | cons u rest ih =>
    by_cases h : env.stopNotifyOk u = true
    · simp [cleanup_loop, h, ih]
    · simp [cleanup_loop, h, ih]

theorem cleanup_loop_mem (env : AdapterEnv) (l : List String) (s : SubSet)
    (hnd : s.Nodup) (x : String) :
    x ∈ (cleanup_loop env l s).1 ↔
      x ∈ s ∧ ¬(x ∈ l ∧ env.stopNotifyOk x = true) := by
  induction l generalizing s with
  | nil => simp [cleanup_loop]
  | cons u rest ih =>
    by_cases h : env.stopNotifyOk u = true
    · have hstep : cleanup_loop env (u :: rest) s
          = ((cleanup_loop env rest (s.erase u)).1,
              .stopNotify u :: (cleanup_loop env rest (s.erase u)).2.1,
              .unsubscribed u :: (cleanup_loop env rest (s.erase u)).2.2) := by
        simp [cleanup_loop, h]
      rw [hstep]
      dsimp only
      rw [ih (s.erase u) (hnd.erase u), hnd.mem_erase_iff]
      simp only [List.mem_cons]
      by_cases hxu : x = u
      · subst hxu
        simp [h]
      · simp only [hxu, false_or]
        try tauto
    · have hstep : cleanup_loop env (u :: rest) s
          = ((cleanup_loop env rest s).1,
              .stopNotify u :: (cleanup_loop env rest s).2.1,
              .unsubscribeFailed u :: (cleanup_loop env rest s).2.2) := by
        simp [cleanup_loop, h]
      rw [hstep]
      dsimp only
      rw [ih s hnd]
      simp only [List.mem_cons]
      by_cases hxu : x = u
      · subst hxu
        simp [h]
      · simp only [hxu, false_or]
        try tauto

theorem unsubscribe_all_calls (env : AdapterEnv) (s : SubSet) :
    (unsubscribe_all env s).2.1 = s.map AdapterCall.stopNotify :=
  cleanup_loop_calls env s s

theorem unsubscribe_all_mem (env : AdapterEnv) (s : SubSet) (hnd : s.Nodup)
    (x : String) :
    x ∈ (unsubscribe_all env s).1 ↔ x ∈ s ∧ env.stopNotifyOk x = false := by
  rw [unsubscribe_all, cleanup_loop_mem env s s hnd x]
  constructor
  · rintro ⟨hx, hn⟩
    refine ⟨hx, ?_⟩
    cases hok : env.stopNotifyOk x with
    | false => rfl
    | true => exact absurd ⟨hx, hok⟩ hn
  · rintro ⟨hx, hf⟩
    exact ⟨hx, fun hc => by rw [hc.2] at hf; cases hf⟩

theorem unsubscribe_all_empty (env : AdapterEnv) (s : SubSet) (hnd : s.Nodup)
    (hok : ∀ u, env.stopNotifyOk u = true) :
    (unsubscribe_all env s).1 = [] := by
  rw [List.eq_nil_iff_forall_not_mem]
  intro x hx
  rcases (unsubscribe_all_mem env s hnd x).mp hx with ⟨_, hf⟩
  rw [hok x] at hf
  cases hf

/-- Counterexample to C1: When a `stop_notify` raises during the cleanup
loop, the `subscribed_chars.remove` on the following line is skipped by the
`except` handler, so the identifier survives: after `quit` with one
subscribed identifier whose cancellation fails, the Subscription Set is
still non-empty. -/
theorem cleanup_leaves_set_nonempty_cex :
    (interact_step envStopFails notifyActs ["2a19"] (.line "quit")).subscribed
      = ["2a19"] ∧ (["2a19"] : SubSet) ≠ [] :=
  ⟨rfl, by decide⟩

/-- C1 amended: On every exit path from the Connected state (`quit`,
`exit`, `rescan`, interrupt) a `stop_notify` is attempted for every
identifier in the Subscription Set, but only those whose cancellation call
succeeded are removed: an identifier whose `stop_notify` raised remains in
the set, so the set is empty afterwards only when every cancellation
succeeded. -/
theorem cleanup_attempts_all_removes_succeeded (env : AdapterEnv)
    (actionable : List (String × List String)) (s : SubSet) (hnd : s.Nodup)
    (ev : InputEvent)
    (hev : ev = .line "quit" ∨ ev = .line "exit" ∨ ev = .line "rescan" ∨
      ev = .interrupt) :
    (interact_step env actionable s ev).calls = s.map AdapterCall.stopNotify ∧
    (interact_step env actionable s ev).result ≠ .continueLoop ∧
    ∀ x, x ∈ (interact_step env actionable s ev).subscribed ↔
      x ∈ s ∧ env.stopNotifyOk x = false := by
  rcases hev with h | h | h | h <;> subst h
  · exact ⟨unsubscribe_all_calls env s,
      (by decide : StepResult.exitProgram ≠ StepResult.continueLoop),
      fun x => unsubscribe_all_mem env s hnd x⟩
  · exact ⟨unsubscribe_all_calls env s,
      (by decide : StepResult.exitProgram ≠ StepResult.continueLoop),
      fun x => unsubscribe_all_mem env s hnd x⟩
  · exact ⟨unsubscribe_all_calls env s,
      (by decide : StepResult.rescanRequest ≠ StepResult.continueLoop),
      fun x => unsubscribe_all_mem env s hnd x⟩
  · exact ⟨unsubscribe_all_calls env s,
      (by decide : StepResult.exitProgram ≠ StepResult.continueLoop),
      fun x => unsubscribe_all_mem env s hnd x⟩

/-- Witness for `cleanup_attempts_all_removes_succeeded`: a `rescan` with one
subscribed identifier whose `stop_notify` raises. -/
theorem cleanup_attempts_all_removes_succeeded_witness :
    (interact_step envStopFails notifyActs ["2a19"] (.line "rescan")).calls
        = [AdapterCall.stopNotify "2a19"] ∧
    ("2a19" ∈ (interact_step envStopFails notifyActs ["2a19"]
          (.line "rescan")).subscribed ↔
      "2a19" ∈ (["2a19"] : SubSet) ∧
        envStopFails.stopNotifyOk "2a19" = false) :=
  ⟨(cleanup_attempts_all_removes_succeeded envStopFails notifyActs ["2a19"]
      (by simp) (.line "rescan") (Or.inr (Or.inr (Or.inl rfl)))).1,
    (cleanup_attempts_all_removes_succeeded envStopFails notifyActs ["2a19"]
      (by simp) (.line "rescan") (Or.inr (Or.inr (Or.inl rfl)))).2.2 "2a19"⟩

/-- C10: An empty or whitespace-only input line is skipped by the
`if not user_input: continue` guard: no message, no transport call, and the
subscription set is unchanged; the loop just prompts again. -/
theorem empty_input_skipped (env : AdapterEnv)
    (actionable : List (String × List String)) (s : SubSet) (raw : String)
    (h : pyStrip raw = "") :
    interact_step env actionable s (.line raw)
      = ⟨.continueLoop, s, [], []⟩ := by
  have hl : pyLower (pyStrip raw) = "" := by
    rw [h]
    rfl
  simp [interact_step, hl]

/-- Witness for `empty_input_skipped`: a line of three spaces while one
identifier is subscribed. -/
theorem empty_input_skipped_witness :
    interact_step envAllOk notifyActs ["2a19"] (.line "   ")
      = ⟨.continueLoop, ["2a19"], [], []⟩ :=
  empty_input_skipped envAllOk notifyActs ["2a19"] "   " (by decide)

/-! ### Mid-session connection errors -/

/-- A device exposing one read-capable characteristic. -/
def readActs : List (String × List String) := [("2A00", ["read"])]

/-- Counterexample to C6: A connection-layer error while in the Connected
state — here `read_gatt_char` raising after the device dropped — is caught
by the `except` handler inside `read_characteristic_by_index`
(lines 96-97): the error is reported, but the command loop continues
(result `continueLoop`) with the same Characteristic Index and Subscription
Set, instead of returning control to the Scan/Selection loop. -/
theorem midsession_disconnect_continues_cex :
    (interact_step envDead readActs [] (.line "read 0")).result
        = .continueLoop ∧
    StepResult.continueLoop ≠ StepResult.rescanRequest ∧
    (interact_step envDead readActs [] (.line "read 0")).msgs
        = [.readReport (.readFailed "2A00")] :=
  ⟨rfl, by decide, rfl⟩

/-- C6 amended: A connection-layer error during a command is reported at
operation level and the command loop continues with the same Characteristic
Index and Subscription Set: a failing `read_gatt_char` leaves the set
unchanged, and dispatching any `read` line never leaves the loop; only
`quit`/`exit`/`rescan`/interrupt do. -/
theorem read_error_stays_in_loop (env : AdapterEnv)
    (actionable : List (String × List String)) (index : Nat) (s : SubSet)
    (hlt : index < actionable.length)
    (hread : (actionable.getD index ("", [])).2.contains "read" = true)
    (hfail : env.readOk (actionable.getD index ("", [])).1 = false) :
    read_characteristic_by_index env actionable index s
      = (.readFailed (actionable.getD index ("", [])).1, s,
          [.readGatt (actionable.getD index ("", [])).1]) ∧
    ∀ (s' : SubSet) (raw : String),
      (pySplit (pyLower (pyStrip raw))).headD "" = "read" →
      (interact_step env actionable s' (.line raw)).result = .continueLoop := by
  constructor
  · have hne : actionable ≠ [] := by
      intro h
      rw [h] at hlt
      simp at hlt
    unfold read_characteristic_by_index
    rw [if_neg hne, if_pos hlt, if_neg (by rw [hread]; decide),
      if_neg (by rw [hfail]; decide)]
  · intro s' raw hhead
    by_cases hu : pyLower (pyStrip raw) = ""
    · rw [hu] at hhead
      exact absurd hhead (by decide)
    · simp only [interact_step]
      rw [if_neg hu, hhead]
      simp
      split <;> rfl

/-- Witness for `read_error_stays_in_loop`: a dead connection, index 0 of the
read fixture, and the line `read 9`. -/
theorem read_error_stays_in_loop_witness :
    read_characteristic_by_index envDead readActs 0 []
        = (.readFailed "2A00", [], [.readGatt "2A00"]) ∧
    (interact_step envDead readActs [] (.line "read 9")).result
        = .continueLoop :=
  ⟨(read_error_stays_in_loop envDead readActs 0 [] (by decide) (by decide)
      (by decide)).1,
    (read_error_stays_in_loop envDead readActs 0 [] (by decide) (by decide)
      (by decide)).2 [] "read 9" (by decide)⟩

/-! ### Session and main-loop level -/

/-- First main round for the staleness counterexample: connect, `subscribe 0`
(which succeeds and stores `2a19`), then `rescan`, whose cleanup
`stop_notify` raises. -/
def roundSubscribeRescan : Round :=
  ⟨some "AA:BB", .ok, notifySvcs, [.line "subscribe 0", .line "rescan"],
    envStopFails⟩

/-- Second main round: a fresh connection to the same device with no
commands issued yet. -/
def roundIdle : Round :=
  ⟨some "AA:BB", .ok, notifySvcs, [], envStopFails⟩

/-- Counterexample to C2: `subscribed_chars` is a module-level global that
no code resets on connect: after a session subscribes to `2a19` and rescans
while its cleanup `stop_notify` raises, the next session's connection starts
with `2a19` still in the Subscription Set — not with the empty set. -/
theorem stale_set_after_reconnect_cex :
    ((main_loop [roundSubscribeRescan, roundIdle] []).2.2.getD 1
        default).setAtConnect = some ["2a19"] ∧
    (some ["2a19"] : Option SubSet) ≠ some ([] : SubSet) :=
  ⟨rfl, by decide⟩

/-- C2 amended: The Subscription Set immediately after a connection is
established equals whatever the global `subscribed_chars` held when
`interact_with_device` was entered (the script never clears it on connect);
it is empty only when earlier cleanup drained it — in particular a `rescan`
exit whose `stop_notify` calls all succeed leaves the next session an empty
set. -/
theorem subscribed_set_carried_from_global (env : AdapterEnv)
    (services : List Service) (events : List InputEvent) (s0 : SubSet)
    (hnd : s0.Nodup) (hok : ∀ u, env.stopNotifyOk u = true) :
    (interact_with_device env .ok services events s0).setAtConnect = some s0 ∧
    (interact_with_device env .ok services [.line "rescan"] s0).finalSet
      = [] := by
  refine ⟨rfl, ?_⟩
  show (unsubscribe_all env s0).1 = []
  exact unsubscribe_all_empty env s0 hnd hok

/-- Witness for `subscribed_set_carried_from_global`: a non-empty carried
global and a transport whose `stop_notify` always succeeds. -/
theorem subscribed_set_carried_from_global_witness :
    (interact_with_device envAllOk .ok notifySvcs [.line "subscribe 0"]
        ["aaaa"]).setAtConnect = some ["aaaa"] ∧
    (interact_with_device envAllOk .ok notifySvcs [.line "rescan"]
        ["aaaa"]).finalSet = [] :=
  ⟨(subscribed_set_carried_from_global envAllOk notifySvcs
      [.line "subscribe 0"] ["aaaa"] (by simp) (fun _ => rfl)).1,
    (subscribed_set_carried_from_global envAllOk notifySvcs
      [.line "subscribe 0"] ["aaaa"] (by simp) (fun _ => rfl)).2⟩

/-- C7: A connect attempt that fails by timeout or connection error
reports the failure and returns `False` without building any characteristic
listing, and `main` then loops back into `scan_for_ble` (a fresh scan)
instead of terminating: running `main` on such a round recurses on the
remaining rounds with the global set unchanged. -/
theorem connect_failure_recovers (env : AdapterEnv) (services : List Service)
    (events : List InputEvent) (s : SubSet) (co : ConnectOutcome)
    (addr : String) (rest : List Round) (h : co ≠ .ok) :
    (interact_with_device env co services events s).builtIndex = none ∧
    (interact_with_device env co services events s).returnedValue
        = some false ∧
    main_loop (⟨some addr, co, services, events, env⟩ :: rest) s
      = ((main_loop rest s).1, (main_loop rest s).2.1,
          interact_with_device env co services events s
            :: (main_loop rest s).2.2) := by
  cases co with
  | ok => exact absurd rfl h
  | timeout => exact ⟨rfl, rfl, rfl⟩
  | connectError => exact ⟨rfl, rfl, rfl⟩

/-- Witness for `connect_failure_recovers`: a timed-out connect as the only
scripted round. -/
theorem connect_failure_recovers_witness :
    (interact_with_device envAllOk .timeout notifySvcs [] []).builtIndex
        = none ∧
    main_loop (⟨some "AA:BB", .timeout, notifySvcs, [], envAllOk⟩ :: []) []
      = ((main_loop [] []).1, (main_loop [] []).2.1,
          interact_with_device envAllOk .timeout notifySvcs [] []
            :: (main_loop [] []).2.2) :=
  ⟨(connect_failure_recovers envAllOk notifySvcs [] [] .timeout "AA:BB" []
      (by decide)).1,
    (connect_failure_recovers envAllOk notifySvcs [] [] .timeout "AA:BB" []
      (by decide)).2.2⟩

/-! ### Scan/selection loop -/

/-- The two-device scan result of the spec's scenario. -/
def demoDevices : List DiscoveredDevice :=
  [⟨some "Unknown", "AA:BB"⟩, ⟨some "Sensor", "CC:DD"⟩]

/-- C8: A numeric selection `i` resolves to the address of the `i`-th
discovered device exactly when `0 ≤ i < len(devices)`; otherwise the
"Invalid device number" report fires and the selection loop continues with
the same device list. -/
theorem selection_resolution (devices : List DiscoveredDevice) (i : Nat) :
    (∀ h : i < devices.length,
      resolve_selection devices i = some ((devices.get ⟨i, h⟩).address)) ∧
    (devices.length ≤ i →
      resolve_selection devices i = none ∧
      ∀ raw rest, pyIsDigit (pyLower (pyStrip raw)) = true →
        pyToNat (pyLower (pyStrip raw)) = i →
        scan_selection_step devices raw = .invalidNumber ∧
        scan_inner_loop devices (raw :: rest)
          = scan_inner_loop devices rest) := by
  constructor
  · intro h
    unfold resolve_selection
    rw [if_pos h]
    rw [List.getD_eq_getElem devices default h]
    rfl
  · intro hge
    have hnone : resolve_selection devices i = none := by
      unfold resolve_selection
      rw [if_neg (by omega)]
    refine ⟨hnone, ?_⟩
    intro raw rest hdig hval
    have hstep : scan_selection_step devices raw = .invalidNumber := by
      have h1 : ¬(pyLower (pyStrip raw) = "help") := fun hc =>
        absurd (hc ▸ hdig) (by decide)
      have h2 : ¬(pyLower (pyStrip raw) = "quit") := fun hc =>
        absurd (hc ▸ hdig) (by decide)
      have h3 : ¬(pyLower (pyStrip raw) = "exit") := fun hc =>
        absurd (hc ▸ hdig) (by decide)
      have h4 : ¬(pyLower (pyStrip raw) = "refresh") := fun hc =>
        absurd (hc ▸ hdig) (by decide)
      unfold scan_selection_step
      rw [if_neg h1, if_neg h2, if_neg h3, if_neg h4, if_pos hdig, hval,
        hnone]
    refine ⟨hstep, ?_⟩
    simp only [scan_inner_loop]
    rw [hstep]

/-- Witness for `selection_resolution`: the spec's scenario, where selecting
`1` from `[("Unknown", "AA:BB"), ("Sensor", "CC:DD")]` connects to `CC:DD`,
and `5` is out of range. -/
theorem selection_resolution_witness :
    resolve_selection demoDevices 1 = some "CC:DD" ∧
    resolve_selection demoDevices 5 = none :=
  ⟨(selection_resolution demoDevices 1).1 (by decide),
    ((selection_resolution demoDevices 5).2 (by decide)).1⟩

end BLEConnect
